import Mathlib

/-!
Verification development for the forensic report generator repository.

Shallow embedding of the parts of the code the verified properties talk
about:

* `workflow/filter_node.py` — recursive importance filtering
  (`recursive_filter_node`, `should_continue_filtering`,
  `analyze_chunk_simple`'s target-count hint);
* `workflow/classes.py` — `AgentState` / `create_initial_state`;
* `workflow/tools.py` — `artifact_search_tool`'s clamping, similarity
  filtering and truncation;
* `pdf_export/pdf_generator.py` — `transform_flat_to_hierarchical`;
* `common/report_exporters.py` — exporter for section 9;
* `common/Generator.py` — `Generator.generate_report` orchestration and
  `_generate_pdf_report`;
* `pdf_export/exporter.py` — the signature of
  `PDFReportExporter.generate_and_upload` (for the call-binding argument).

LLM calls, the vector store and the simulated backend are modelled as
parameters (oracles): the theorems hold for every behaviour of those
external services.  Python floats are modelled as rationals, Python ints
as `Int`/`Nat`.
-/

namespace Gen

/-! ## Data model (common/models.py) -/

/-- `ScenarioStepCreate` from `common/models.py`: one step of a reconstructed
sequence of events.  The `timestamp` (an optional datetime) is kept abstract
as an optional string. -/
structure ScenarioStepCreate where
  order_no : Int
  timestamp : Option String
  description : String
  artifact_ids : List String
deriving DecidableEq, Repr

/-- `ScenarioCreate` from `common/models.py` (the name `scenario` itself is
avoided as a Lean identifier; fields keep the source names). -/
structure ScenarioCreate where
  job_id : String
  task_id : String
  report_detail_id : Option String
  name : String
  description : Option String
  steps : List ScenarioStepCreate
deriving DecidableEq, Repr

/-- `ReportDetailCreate` from `common/models.py`: `section_type` is the
integer value of `SectionTypeEnum`. -/
structure ReportDetailCreate where
  section_type : Nat
  content : String
  order_no : Option Nat
deriving DecidableEq, Repr

/-- `ReportCreate` from `common/models.py`. -/
structure ReportCreate where
  title : String
  summary : Option String
  pc_id : String
  task_id : String
  details : List ReportDetailCreate
deriving DecidableEq, Repr

/-- The integer values of the `SectionTypeEnum` members, in declaration
order (`analysis_objective = 0` … `result = 10`): the order in which
`Generator._generate_report_details` iterates `for sectiontype in
SectionTypeEnum`. -/
def section_type_list : List Nat := [0, 1, 2, 3, 4, 5, 6, 7, 8, 9, 10]

/-! ## Python numeric helpers

Python floats are modelled as rationals.  `int()` truncates toward zero;
`round()` is round-half-to-even. -/

/-- Python `int(x)` on a number: truncation toward zero. -/
def pyInt (q : ℚ) : ℤ := if 0 ≤ q then ⌊q⌋ else ⌈q⌉

/-- Python `round(x)`: round half to even. -/
def pyRound (q : ℚ) : ℤ :=
  let f := ⌊q⌋
  let r := q - (f : ℚ)
  if r < 1 / 2 then f
  else if 1 / 2 < r then f + 1
  else if 2 ∣ f then f else f + 1

/-! ## Shared utilities (common/utils.py) -/

/-- `chunk_artifacts` from `common/utils.py`:
`[artifacts[i:i+chunk_size] for i in range(0, len(artifacts), chunk_size)]`. -/
def chunk_artifacts (xs : List α) (chunk_size : Nat) : List (List α) :=
  if chunk_size = 0 then []
  else
    match _hx : xs with
    | [] => []
    | _ :: _ => xs.take chunk_size :: chunk_artifacts (xs.drop chunk_size) chunk_size
termination_by xs.length
decreasing_by
  simp only [List.length_drop]
  rename_i hsz
  subst _hx
  simp_all
  omega

/-! ## Workflow state (workflow/classes.py) -/

/-- `ChunkAnalysisResult` from `workflow/classes.py`, polymorphic in the
artifact representation (artifacts are opaque dicts to the filter code). -/
structure ChunkAnalysisResult (α : Type) where
  important_artifacts : List α
  chunk_summary : String
deriving DecidableEq, Repr

/-- The slice of `AgentState` (workflow/classes.py) manipulated by the
filtering nodes and the production entry point.  Fields keep the source
names (the source `final_report` holds the generated ScenarioCreate). -/
structure AgentState (α : Type) where
  job_id : String
  task_id : String
  job_info : List (String × String)
  artifact_chunks : List (List α)
  intermediate_results : List (ChunkAnalysisResult α)
  filter_iteration : Nat
  target_artifact_count : Nat
  current_strictness : String
  raw_user_requirements : String
  final_report : Option ScenarioCreate
  context : Option String
deriving Repr

/-! ### AgentState key declarations and `create_initial_state`

`AgentState` in the source is `class AgentState(TypedDict, total=False)`.
Python's `typing.TypedDict` semantics: with `total=False`, every key
declared in the class body is optional, so `AgentState.__required_keys__`
is the empty frozenset and `AgentState.__optional_keys__` holds all
declared keys. -/

/-- All keys declared in the `AgentState` TypedDict body, in source order. -/
def agent_state_declared_keys : List String :=
  ["job_id", "task_id", "job_info",
   "artifact_chunks", "intermediate_results", "filter_iteration",
   "target_artifact_count", "current_strictness",
   "current_chunk_index", "raw_user_requirements",
   "filtered_artifacts", "data_save_status", "collection_name", "db_config",
   "analyzed_user_requirements",
   "messages", "analysis_failed",
   "final_report", "context"]

/-- The `total=...` flag of the `AgentState` TypedDict declaration:
`class AgentState(TypedDict, total=False)`. -/
def agent_state_total_flag : Bool := false

/-- `AgentState.__required_keys__`: with `total=False` this is empty. -/
def agent_state_required_keys : List String :=
  if agent_state_total_flag then agent_state_declared_keys else []

/-- `AgentState.__optional_keys__`: with `total=False` this is every
declared key. -/
def agent_state_optional_keys : List String :=
  if agent_state_total_flag then [] else agent_state_declared_keys

/-- `create_initial_state(**kwargs)` from `workflow/classes.py`, modelled on
the set of keyword names supplied (the key set is all the validation looks
at).  Returns the kwargs as the state on success and an error (the raised
`ValueError`'s message tag) otherwise. -/
def create_initial_state (kwargs : List String) : Except String (List String) :=
  let missing_keys := agent_state_required_keys.filter (fun k => !(kwargs.contains k))
  if missing_keys ≠ [] then
    Except.error "필수 필드 누락"
  else
    let not_allowed_keys := kwargs.filter
      (fun k => !(agent_state_required_keys.contains k) &&
                !(agent_state_optional_keys.contains k))
    if not_allowed_keys ≠ [] then
      Except.error "허용되지 않은 키 입력"
    else
      Except.ok kwargs

/-! ## Recursive filtering (workflow/filter_node.py) -/

/-- The strictness ladder of `recursive_filter_node`:
`[("very_strict", 0.015), ("strict", 0.025), ("moderate", 0.06)]`.
`rate` stands for the source's per-level target selection fraction
(`target_ratio` in the Python). -/
def strictness_levels : List (String × ℚ) :=
  [("very_strict", 15 / 1000), ("strict", 25 / 1000), ("moderate", 6 / 100)]

/-- The target-count hint `analyze_chunk_simple` passes to the LLM:
`target_count = max(5, int(len(chunk) * target_ratio))`
(workflow/filter_node.py line 250). -/
def analyze_chunk_target_count (chunk : List α) (target_rate : ℚ) : ℤ :=
  max 5 (pyInt ((chunk.length : ℚ) * target_rate))

/-- The target-count hint as the specification words it:
`max(5, round(chunk_size * target_ratio))` — written from the spec text to
compare against `analyze_chunk_target_count`, which is written from the
source. -/
def spec_round_target_count (chunk : List α) (target_rate : ℚ) : ℤ :=
  max 5 (pyRound ((chunk.length : ℚ) * target_rate))

/-- Total surviving artifacts across `intermediate_results`, as computed by
`sum(len(r.important_artifacts) for r in intermediate_results)`. -/
def surviving_total (s : AgentState α) : Nat :=
  (s.intermediate_results.map (fun r => r.important_artifacts.length)).sum

/-- `should_continue_filtering` from `workflow/filter_node.py`
(`target_count` is `state.get("target_artifact_count", 10000)`,
`total_filtered` the sum over `intermediate_results`, `max_iterations = 3`). -/
def should_continue_filtering (s : AgentState α) : String :=
  if surviving_total s ≤ s.target_artifact_count then "synthesize"
  else if 3 ≤ s.filter_iteration then "synthesize"
  else "continue"

/-- `recursive_filter_node` from `workflow/filter_node.py`, parameterised by
the per-chunk analysis oracle (`analyze_chunk_simple`'s LLM call): the
oracle receives the chunk, its index and the current target rate.  Batch
scheduling resequences per-chunk results into chunk-index order (the sort
on line 135), so the result list is the in-order map over the chunks. -/
def recursive_filter_node (analyze : List α → Nat → ℚ → ChunkAnalysisResult α)
    (s : AgentState α) : AgentState α :=
  let max_iterations := 3
  if max_iterations ≤ s.filter_iteration then s
  else
    let level := strictness_levels.getD s.filter_iteration ("", 0)
    let target_rate := level.2
    let all_artifacts :=
      if s.filter_iteration = 0 then s.artifact_chunks.flatten
      else (s.intermediate_results.map (fun r => r.important_artifacts)).flatten
    let chunks := chunk_artifacts all_artifacts 300
    let all_results := chunks.enum.map (fun p => analyze p.2 p.1 target_rate)
    let next_iteration := s.filter_iteration + 1
    let next_strictness_idx := min next_iteration (strictness_levels.length - 1)
    let next_strictness := (strictness_levels.getD next_strictness_idx ("", 0)).1
    { s with
      intermediate_results := all_results
      filter_iteration := next_iteration
      current_strictness := next_strictness }

/-! ## Agent search tool (workflow/tools.py) -/

/-- `MAX_SEARCH_RESULTS` from `workflow/classes.py` / `workflow/database.py`. -/
def MAX_SEARCH_RESULTS : ℤ := 300

/-- The fields of a `StructuredQuery` dict that `artifact_search_tool` reads
(workflow/classes.py; the `.get` defaults of tools.py lines 415-425 are the
callers' concern — here the extracted values are taken as given).
Datetimes are modelled as epoch rationals, as after
`datetime_to_timestamp`. -/
structure StructuredQuery where
  query_text : String
  filter_artifact_types : Option (List String)
  filter_datetime_start : Option ℚ
  filter_datetime_end : Option ℚ
  max_results : ℤ
  similarity_threshold : ℚ
deriving DecidableEq, Repr

/-- One hit returned by `vectorstore.similarity_search_with_score`: a
document (opaque) and its distance score. -/
structure ScoredDoc (D : Type) where
  doc : D
  score : ℚ
deriving DecidableEq, Repr

/-- The `metadata` dict of `artifact_search_tool`'s return value (the
fields the verified properties mention). -/
structure SearchMeta where
  requested : ℤ
  returned : Nat
  filtered_from : Nat
  limited : Bool
  threshold : ℚ
deriving DecidableEq, Repr

/-- The return value of `artifact_search_tool`. -/
structure SearchResult (D : Type) where
  artifacts : List D
  meta : SearchMeta
deriving DecidableEq, Repr

/-- `artifact_search_tool` (workflow/tools.py lines 423-547), with the
stage-1 vector-store call abstracted: `hits` is the list
`results_with_scores` that `similarity_search_with_score` returned for
`k = 2 * max_results` under the metadata filter.  The clamping of
`max_results`, the `limited` flag, the distance filter
`score <= 1.0 - similarity_threshold` and the `[:max_results]` truncation
are translated line by line. -/
def artifact_search_tool (q : StructuredQuery) (hits : List (ScoredDoc D)) :
    SearchResult D :=
  let requested_max := q.max_results
  let clamp :=
    if MAX_SEARCH_RESULTS < requested_max then (MAX_SEARCH_RESULTS, true)
    else if requested_max < 1 then ((1 : ℤ), false)
    else (requested_max, false)
  let max_results := clamp.1
  let limited := clamp.2
  let filtered_results :=
    hits.filter (fun h => h.score ≤ 1 - q.similarity_threshold)
  let taken := filtered_results.take max_results.toNat
  { artifacts := taken.map (fun h => h.doc)
    meta :=
      { requested := requested_max
        returned := taken.length
        filtered_from := hits.length
        limited := limited
        threshold := q.similarity_threshold } }

/-! ## PDF hierarchy transform (pdf_export/pdf_generator.py) -/

/-- One flat detail dict as consumed by `transform_flat_to_hierarchical`
(`detail.get('section_type', 0)` and `item.get('content', '')` already
resolved by the callers that build these dicts from the backend reply). -/
structure FlatDetail where
  section_type : Nat
  content : String
deriving DecidableEq, Repr

/-- `SECTION_TITLES` from pdf_generator.py. -/
def SECTION_TITLES : List (Nat × String) :=
  [(0, "분석 목적"), (1, "데이터 수집"), (2, "분석 일정"),
   (3, "분석 방법 및 절차"), (4, "분석의 한계"), (5, "분석 요약"),
   (6, "취득 행위"), (7, "유출 행위"), (8, "증거 인멸 행위"),
   (9, "기타 의심 행위"), (10, "확인된 사실"), (11, "종합 의견 및 재구성")]

/-- `MAIN_SECTIONS` from pdf_generator.py. -/
def MAIN_SECTIONS : List (Nat × String) :=
  [(1, "개요"), (2, "분석 요약 및 상세"), (3, "분석 결과")]

/-- `SECTION_TO_MAIN_MAPPING` from pdf_generator.py: the 12-entry
sub-section → main-section table. -/
def SECTION_TO_MAIN_MAPPING : List (Nat × Nat) :=
  [(0, 1), (1, 1), (2, 1), (3, 1), (4, 1),
   (5, 2), (6, 2), (7, 2), (8, 2), (9, 2),
   (10, 3), (11, 3)]

/-- `SECTION_TO_MAIN_MAPPING.get(section_type, 3)`. -/
def section_to_main (st : Nat) : Nat :=
  (SECTION_TO_MAIN_MAPPING.lookup st).getD 3

/-- `SECTION_TITLES.get(section_type, f"소분류 {section_type}")`. -/
def section_title (st : Nat) : String :=
  (SECTION_TITLES.lookup st).getD ("소분류 " ++ toString st)

/-- `MAIN_SECTIONS.get(main_section_id, f"섹션 {main_section_id}")`. -/
def main_title (mid : Nat) : String :=
  (MAIN_SECTIONS.lookup mid).getD ("섹션 " ++ toString mid)

/-- One entry of a main section's `sections` list. -/
structure SubSection where
  section_order : Nat
  section_title : String
  content : String
deriving DecidableEq, Repr

/-- One entry of the transformed detail list. -/
structure MainSection where
  main_order : Nat
  main_title : String
  sections : List SubSection
deriving DecidableEq, Repr

/-- Insertion of a number into a sorted list (ascending). -/
def insert_sorted (x : Nat) : List Nat → List Nat
  | [] => [x]
  | y :: ys => if x ≤ y then x :: y :: ys else y :: insert_sorted x ys

/-- Insertion sort on naturals, modelling Python's `sorted`. -/
def sort_nat : List Nat → List Nat
  | [] => []
  | x :: xs => insert_sorted x (sort_nat xs)

/-- `enumerate(items, 1)` over flat details, building `sections` entries:
`{'section_order': idx, 'section_title': ..., 'content': ...}`. -/
def number_from (n : Nat) : List FlatDetail → List SubSection
  | [] => []
  | d :: ds =>
    { section_order := n
      section_title := section_title d.section_type
      content := d.content } :: number_from (n + 1) ds

/-- `transform_flat_to_hierarchical` (pdf_generator.py lines 64-109).
Step 1 groups details by `section_type` (input order preserved within a
type); step 2 walks the distinct section types in `sorted` order and
appends each type's items to its main group; step 3 walks the main ids in
`sorted` order and renumbers each group's items 1..N. -/
def transform_flat_to_hierarchical (details : List FlatDetail) : List MainSection :=
  let sts := sort_nat ((details.map (fun d => d.section_type)).dedup)
  let items_for : Nat → List FlatDetail := fun mid =>
    (sts.filter (fun st => section_to_main st = mid)).flatMap
      (fun st => details.filter (fun d => d.section_type = st))
  let main_ids := sort_nat ((sts.map section_to_main).dedup)
  main_ids.map (fun mid =>
    { main_order := mid
      main_title := main_title mid
      sections := number_from 1 (items_for mid) })

/-- The sub-section list a main group would carry under the reading "the
sub-sections of a group appear in encounter order of the input details,
renumbered 1..N" — written from the claim's words, to compare with
`transform_flat_to_hierarchical`, which is written from the source. -/
def spec_encounter_order_sections (details : List FlatDetail) (mid : Nat) :
    List SubSection :=
  number_from 1 (details.filter (fun d => section_to_main d.section_type = mid))

/-- Stable insertion by ascending `section_type`: the inserted detail goes
in front of the first entry whose type is not smaller, so a detail
encountered earlier in the input ends up before equal-typed details
encountered later. -/
def insert_detail (d : FlatDetail) : List FlatDetail → List FlatDetail
  | [] => [d]
  | e :: es =>
    if d.section_type ≤ e.section_type then d :: e :: es
    else e :: insert_detail d es

/-- Stable sort of details by ascending `section_type` (ties in encounter
order). -/
def sort_details_stable : List FlatDetail → List FlatDetail
  | [] => []
  | d :: ds => insert_detail d (sort_details_stable ds)

/-- The sub-section list the amended claim asserts for a main group: the
input details belonging to the group, ordered by ascending `section_type`
with ties in encounter order (a stable sort), renumbered 1..N — written
from the amended claim's words, independently of the source's
group-by-sorted-keys construction, to compare with
`transform_flat_to_hierarchical`. -/
def claimed_ascending_sections (details : List FlatDetail) (mid : Nat) :
    List SubSection :=
  number_from 1 (sort_details_stable
    (details.filter (fun d => section_to_main d.section_type = mid)))

/-! ## Report section exporters (common/report_exporters.py) -/

/-- Python `str.strip()` (no arguments): drop leading and trailing
whitespace. -/
def pyStrip (s : String) : String :=
  String.mk (((s.data.dropWhile Char.isWhitespace).reverse.dropWhile
    Char.isWhitespace).reverse)

/-- Python `str.lower()` on the ASCII range. -/
def pyLower (s : String) : String :=
  String.mk (s.data.map Char.toLower)

/-- The exporter for section index 9 (`export_9` composed with
`create_llm_exporter(PROMPT_9, ["context"])`), parameterised by the payload's
`context` field (None when absent) and the LLM's response text.
`_validate_field` raises on a missing `context`; an empty or
whitespace-only response raises `BrokenPipeError`; a response whose
`.lower()` equals `"none"` yields `{"content": None}`; anything else is
returned as the content. -/
def export_9 (context_field : Option String) (resp : String) :
    Except String (Option String) :=
  match context_field with
  | none => Except.error "필수 데이터 누락: context"
  | some _ =>
    if pyStrip resp = "" then Except.error "LLM 응답이 비어있습니다"
    else if pyLower resp = "none" then Except.ok none
    else Except.ok (some resp)

/-! ## Report orchestrator (common/Generator.py) -/

/-- Observable steps of `Generator.generate_report`, in execution order. -/
inductive Event where
  | genScenarios : Event
  | saveScenCall : Event
  | exporterCall : Nat → Event
  | saveReportCall : Event
  | pdfCall : Event
deriving DecidableEq, Repr

/-- A saved report-detail row of the simulated backend's `save_report`
reply (common/test_backendclient.py lines 378-388). -/
structure SavedDetail where
  id : String
  section_type : Nat
  content : String
  order_no : Nat
deriving DecidableEq, Repr

/-- The `report` part of the `save_report` reply. -/
structure SavedReportInfo where
  id : String
  title : String
  summary : String
  pc_id : String
  created_at : String
deriving DecidableEq, Repr

/-- The full `save_report` reply dict. -/
structure SaveReportResp where
  report : SavedReportInfo
  details : List SavedDetail
deriving DecidableEq, Repr

/-- The backend client as `generate_report` consumes it: `save_scenario`
returns a boolean; `save_report` either raises (modelled `Except.error`) or
returns its reply dict.  (The simulated `TestBackendClient` is one
instance; `generate_report` takes the client as a parameter.) -/
structure BackendClient where
  saveScen : ScenarioCreate → Bool
  saveReport : ReportCreate → String → String → Except String SaveReportResp

/-- A `save_report` reply dict is `{"report": ..., "details": ...}` — a
non-empty dict, hence always truthy in `if not report_saved`. -/
def save_report_resp_truthy (_resp : SaveReportResp) : Bool := true

/-- The per-section body of `Generator._generate_report_details`'s loop: a
falsy content (`None` or `""`) contributes nothing (`if not content:
continue`, logged as a warning), any other content contributes one
`ReportDetailCreate(section_type, content, order_no=None)`. -/
def detail_of (st : Nat) : Option String → List ReportDetailCreate
  | none => []
  | some c =>
    if c = "" then []
    else [{ section_type := st, content := c, order_no := none }]

/-- The detail-assembly loop of `Generator._generate_report_details`
(lines 85-98): for each section type in order, `invoke_report_details`
either raises (propagating out) or yields a content value, folded in with
`detail_of`.  `contents` is the per-section outcome of
`invoke_report_details`.  Returns the exporter-call events and the
assembled details (or the propagated error). -/
def run_details (sections : List Nat)
    (contents : Nat → Except String (Option String)) :
    List Event × Except String (List ReportDetailCreate) :=
  match sections with
  | [] => ([], Except.ok [])
  | st :: rest =>
    match contents st with
    | Except.error e => ([Event.exporterCall st], Except.error e)
    | Except.ok copt =>
      let tail := run_details rest contents
      (Event.exporterCall st :: tail.1, tail.2.map (fun ds => detail_of st copt ++ ds))

/-- Keyword names supplied at the call site
`exporter.generate_and_upload(report_data=..., delete_local=...,
custom_filename=...)` in `Generator._generate_pdf_report` (lines 145-149). -/
def pdf_call_kwargs : List String := ["report_data", "delete_local", "custom_filename"]

/-- The parameters of `PDFReportExporter.generate_and_upload`
(pdf_export/exporter.py lines 24-30), excluding `self`: name and whether
the parameter is required (has no default). -/
def generate_and_upload_params : List (String × Bool) :=
  [("report_data", true), ("user_id", true),
   ("delete_local", false), ("custom_filename", false)]

/-- Python call binding: a keyword call binds iff every required parameter
receives an argument and every supplied keyword names a parameter;
otherwise the call raises `TypeError` before the function body runs. -/
def call_binds (params : List (String × Bool)) (kwargs : List String) : Bool :=
  params.all (fun p => !p.2 || kwargs.contains p.1) &&
    kwargs.all (fun k => (params.map (fun p => p.1)).contains k)

/-- `Generator._generate_pdf_report` (lines 102-170), parameterised by
`upload_result`: the URL `generate_and_upload` would return if its call
bound.  The body runs inside `try: ... except Exception: return None`, so
a `TypeError` from the unbound call is converted to `None`. -/
def generate_pdf_report (upload_result : Option String) : Option String :=
  if call_binds generate_and_upload_params pdf_call_kwargs then upload_result
  else none

/-- The report skeleton `ReportCreate(title=..., summary=..., pc_id=...,
task_id=..., details=[])` filled by `_generate_report_details`; the title
and summary are the fixed Korean strings of Generator.py lines 70-71. -/
def mk_report (pc_id task_id : String) (details : List ReportDetailCreate) :
    ReportCreate :=
  { title := "윈도우 아티팩트 기반 정보 유출 진단 보고서"
    summary := some "내부 기밀 문서 유출 가능성 존재함"
    pc_id := pc_id
    task_id := task_id
    details := details }

/-- Environment of one `generate_report` run: the outcome of step 1
(`invoke_scenarios`, abstracted), the job-info fields the method reads, the
per-section exporter outcomes, and the would-be upload URL. -/
structure GeneratorEnv where
  scen : ScenarioCreate
  ctx : String
  contents : Nat → Except String (Option String)
  user_id : String
  pc_id : String
  upload_result : Option String

/-- `Generator.generate_report` (Generator.py lines 23-57), returning the
ordered event trace and `none` on normal completion or the raised error.
Step 1 generates the scenario; step 2 saves it, aborting on a falsy
result; steps 3-4 assemble the details; step 5 saves the report, aborting
on failure; step 6 runs the PDF step, whose result is not checked. -/
def generate_report (b : BackendClient) (env : GeneratorEnv)
    (task_id job_id : String) : List Event × Option String :=
  let ev0 := [Event.genScenarios, Event.saveScenCall]
  if b.saveScen env.scen = false then
    (ev0, some "Failed to save scenario. Report generation aborted.")
  else
    let d := run_details section_type_list env.contents
    match d.2 with
    | Except.error e => (ev0 ++ d.1, some e)
    | Except.ok details =>
      let report := mk_report env.pc_id task_id details
      match b.saveReport report env.user_id job_id with
      | Except.error e => (ev0 ++ d.1 ++ [Event.saveReportCall], some e)
      | Except.ok resp =>
        if save_report_resp_truthy resp = false then
          (ev0 ++ d.1 ++ [Event.saveReportCall],
           some "Failed to save report. Report generation failed.")
        else
          let _pdf_url := generate_pdf_report env.upload_result
          (ev0 ++ d.1 ++ [Event.saveReportCall, Event.pdfCall], none)

/-! ## Production scenario entry point (modelled from the spec)

`Generator._generate_scenarios` calls `invoke_scenarios(artifacts, task_id,
job_id, job_info)` imported from `common.agent`, but `common/agent.py` in
the tree defines only the `_test` fixtures — the production
`invoke_scenarios` body is not present under the sources.  It is therefore
modelled from the specification (§4.15). -/

/-- Modelled from the spec: the initial `AgentState` that the missing
production `invoke_scenarios` constructs — `target_artifact_count=100,000`,
`current_strictness="very_strict"`, iteration 0, one chunk list holding the
caller's artifacts, and a fixed constant requirement-text asset. -/
def initial_scenario_state (artifacts : List α) (task_id job_id : String)
    (job_info : List (String × String)) : AgentState α :=
  { job_id := job_id
    task_id := task_id
    job_info := job_info
    artifact_chunks := [artifacts]
    intermediate_results := []
    filter_iteration := 0
    target_artifact_count := 100000
    current_strictness := "very_strict"
    raw_user_requirements := "고정된 분석 요구사항"
    final_report := none
    context := none }

/-- Modelled from the spec: the missing production `invoke_scenarios`
(common/agent.py), parameterised by the compiled workflow graph's `invoke`
(`graph_run budget state`): it runs the full graph over the initial state
with a hard step budget of 80 and returns the resulting scenario
(`final_report`) together with the classification context text, as
`Generator._generate_scenarios` unpacks it. -/
def invoke_scenarios (graph_run : Nat → AgentState α → AgentState α)
    (artifacts : List α) (task_id job_id : String)
    (job_info : List (String × String)) :
    Option ScenarioCreate × Option String :=
  let final_state := graph_run 80 (initial_scenario_state artifacts task_id job_id job_info)
  (final_state.final_report, final_state.context)

/-! ## Theorems -/

/-- C3: `create_initial_state` is claimed to raise for every call missing a
required `AgentState` key and for every call with an unknown key.  The
second half holds, but the first is vacuous in the code: `AgentState` is
declared with `total=False`, so `AgentState.__required_keys__` is empty and
the missing-key check never fires.  Evaluated at the failing input: a call
supplying only `job_id` (missing `task_id`, `job_info`, `artifact_chunks`,
`intermediate_results`, `filter_iteration`, `target_artifact_count`,
`current_strictness`) returns a state instead of raising, while an unknown
key does raise. -/
theorem c3_create_initial_state_eval :
    create_initial_state ["job_id"] = Except.ok ["job_id"]
    ∧ create_initial_state ["job_id", "bogus_key"] = Except.error "허용되지 않은 키 입력"
    ∧ agent_state_required_keys = [] :=
  ⟨rfl, rfl, rfl⟩

/-- C8 counterexample: the claim computes the target-count hint with
Python `round`, but `analyze_chunk_simple` uses `int` (truncation).  At a
15-item chunk with target rate 1/2 the code produces `max(5, int(7.5)) = 7`
while the claimed formula gives `max(5, round(7.5)) = 8`. -/
theorem c8_counterexample :
    analyze_chunk_target_count (List.replicate 15 ()) ((1 : ℚ) / 2) = 7
    ∧ spec_round_target_count (List.replicate 15 ()) ((1 : ℚ) / 2) = 8
    ∧ analyze_chunk_target_count (List.replicate 15 ()) ((1 : ℚ) / 2)
        ≠ spec_round_target_count (List.replicate 15 ()) ((1 : ℚ) / 2) := by
  have h1 : analyze_chunk_target_count (List.replicate 15 ()) ((1 : ℚ) / 2) = 7 := by
    unfold analyze_chunk_target_count pyInt
    rw [if_pos (by positivity)]
    rw [show ⌊((List.replicate 15 ()).length : ℚ) * (1 / 2)⌋ = 7 from by
      norm_num [Int.floor_eq_iff]]
    omega
  have h2 : spec_round_target_count (List.replicate 15 ()) ((1 : ℚ) / 2) = 8 := by
    unfold spec_round_target_count
    rw [show pyRound (((List.replicate 15 ()).length : ℚ) * (1 / 2)) = 8 from by
      unfold pyRound
      norm_num [Int.floor_eq_iff]]
    omega
  exact ⟨h1, h2, by rw [h1, h2]; omega⟩

/-- C8 (amended): for every chunk and every non-negative target rate,
`analyze_chunk_simple` passes the LLM the target-count hint
`max(5, int(len(chunk) * target_ratio))`, i.e. the floor (truncation) of the
product, not its rounding; in particular a 300-item chunk at rate 0.015
yields 5 and a 10-item chunk at the same rate clamps to the floor of 5. -/
theorem c8_target_count_hint (chunk : List α) (target_rate : ℚ)
    (h : 0 ≤ target_rate) :
    analyze_chunk_target_count chunk target_rate
      = max 5 ⌊(chunk.length : ℚ) * target_rate⌋
    ∧ analyze_chunk_target_count (List.replicate 300 ()) ((15 : ℚ) / 1000) = 5
    ∧ analyze_chunk_target_count (List.replicate 10 ()) ((15 : ℚ) / 1000) = 5 := by
  refine ⟨?_, ?_, ?_⟩
  · unfold analyze_chunk_target_count pyInt
    rw [if_pos (mul_nonneg (Nat.cast_nonneg _) h)]
  · unfold analyze_chunk_target_count pyInt
    rw [if_pos (by positivity)]
    rw [show ⌊((List.replicate 300 ()).length : ℚ) * (15 / 1000)⌋ = 4 from by
      norm_num [Int.floor_eq_iff]]
    omega
  · unfold analyze_chunk_target_count pyInt
    rw [if_pos (by positivity)]
    rw [show ⌊((List.replicate 10 ()).length : ℚ) * (15 / 1000)⌋ = 0 from by
      norm_num [Int.floor_eq_iff]]
    omega

/-- C8 witness: the amended theorem instantiated at the 300-item chunk and
rate 0.015. -/
theorem c8_target_count_hint_witness :
    (0 : ℚ) ≤ 15 / 1000
    ∧ (analyze_chunk_target_count (List.replicate 300 ()) ((15 : ℚ) / 1000)
        = max 5 ⌊((List.replicate 300 ()).length : ℚ) * ((15 : ℚ) / 1000)⌋
      ∧ analyze_chunk_target_count (List.replicate 300 ()) ((15 : ℚ) / 1000) = 5
      ∧ analyze_chunk_target_count (List.replicate 10 ()) ((15 : ℚ) / 1000) = 5) :=
  ⟨by norm_num, c8_target_count_hint (List.replicate 300 ()) (15 / 1000) (by norm_num)⟩

/-- Numbering helper: `enumerate(items, 1)` assigns consecutive order
numbers starting at the given seed. -/
theorem number_from_orders (n : Nat) (ds : List FlatDetail) :
    (number_from n ds).map (fun sec => sec.section_order)
      = List.range' n ds.length := by
  induction ds generalizing n with
  | nil => simp [number_from]
  | cons d ds ih => simp [number_from, List.range', ih]

/-- Numbering preserves the item count. -/
theorem number_from_length (n : Nat) (ds : List FlatDetail) :
    (number_from n ds).length = ds.length := by
  induction ds generalizing n with
  | nil => rfl
  | cons d ds ih => simp [number_from, ih]

/-- `insert_sorted` inserts, up to permutation. -/
theorem insert_sorted_perm (x : Nat) (l : List Nat) :
    List.Perm (insert_sorted x l) (x :: l) := by
  induction l with
  | nil => exact List.Perm.refl _
  | cons y ys ih =>
    rw [insert_sorted]
    split_ifs with h
    · exact List.Perm.refl _
    · exact (ih.cons y).trans (List.Perm.swap x y ys)

/-- `sort_nat` permutes its input. -/
theorem sort_nat_perm (l : List Nat) : List.Perm (sort_nat l) l := by
  induction l with
  | nil => exact List.Perm.refl _
  | cons x xs ih => exact (insert_sorted_perm x _).trans (ih.cons x)

/-- `insert_sorted` preserves ascending order. -/
theorem insert_sorted_pairwise_le (x : Nat) (l : List Nat)
    (h : l.Pairwise (· ≤ ·)) : (insert_sorted x l).Pairwise (· ≤ ·) := by
  induction l with
  | nil => simp [insert_sorted]
  | cons y ys ih =>
    rw [insert_sorted]
    rw [List.pairwise_cons] at h
    split_ifs with hxy
    · rw [List.pairwise_cons]
      refine ⟨?_, List.pairwise_cons.mpr h⟩
      intro b hb
      rcases List.mem_cons.mp hb with rfl | hb2
      · exact hxy
      · exact le_trans hxy (h.1 b hb2)
    · rw [List.pairwise_cons]
      refine ⟨?_, ih h.2⟩
      intro b hb
      have hb2 := (insert_sorted_perm x ys).mem_iff.mp hb
      rcases List.mem_cons.mp hb2 with rfl | hb3
      · omega
      · exact h.1 b hb3

/-- `sort_nat` sorts ascending. -/
theorem sort_nat_pairwise_le (l : List Nat) :
    (sort_nat l).Pairwise (· ≤ ·) := by
  induction l with
  | nil => simp [sort_nat]
  | cons x xs ih => exact insert_sorted_pairwise_le x _ ih

/-- `insert_detail` inserts, up to permutation. -/
theorem insert_detail_perm (d : FlatDetail) (xs : List FlatDetail) :
    List.Perm (insert_detail d xs) (d :: xs) := by
  induction xs with
  | nil => exact List.Perm.refl _
  | cons e es ih =>
    rw [insert_detail]
    split_ifs with h
    · exact List.Perm.refl _
    · exact (ih.cons e).trans (List.Perm.swap d e es)

/-- `sort_details_stable` permutes its input. -/
theorem sort_details_stable_perm (xs : List FlatDetail) :
    List.Perm (sort_details_stable xs) xs := by
  induction xs with
  | nil => exact List.Perm.refl _
  | cons d ds ih => exact (insert_detail_perm d _).trans (ih.cons d)

/-- A detail whose type is a lower bound of the list is inserted at the
front. -/
theorem insert_detail_cons_of_le (d : FlatDetail) (xs : List FlatDetail)
    (h : ∀ e ∈ xs, d.section_type ≤ e.section_type) :
    insert_detail d xs = d :: xs := by
  cases xs with
  | nil => rfl
  | cons e es => rw [insert_detail, if_pos (h e (by simp))]

/-- Insertion skips past a prefix of strictly smaller types. -/
theorem insert_detail_append_of_lt (d : FlatDetail) (xs ys : List FlatDetail)
    (h : ∀ e ∈ xs, e.section_type < d.section_type) :
    insert_detail d (xs ++ ys) = xs ++ insert_detail d ys := by
  induction xs with
  | nil => rfl
  | cons e es ih =>
    rw [List.cons_append, insert_detail,
      if_neg (by have := h e (by simp); omega)]
    rw [ih (fun e2 he2 => h e2 (by simp [he2])), List.cons_append]

/-- For a lower bound `k` of the types in `L`, the stable sort puts the
`k`-typed details first (in encounter order) followed by the stable sort
of the rest. -/
theorem sort_details_min_split (k : Nat) (L : List FlatDetail)
    (hmin : ∀ d ∈ L, k ≤ d.section_type) :
    sort_details_stable L
      = L.filter (fun d => d.section_type = k)
        ++ sort_details_stable (L.filter (fun d => ¬ d.section_type = k)) := by
  induction L with
  | nil => rfl
  | cons d L' ih =>
    have hmin' : ∀ e ∈ L', k ≤ e.section_type := fun e he => hmin e (by simp [he])
    have hsortmem : ∀ e ∈ sort_details_stable
        (L'.filter (fun d => ¬ d.section_type = k)),
        k ≤ e.section_type ∧ ¬ e.section_type = k := by
      intro e he
      have he2 : e ∈ L'.filter (fun d => ¬ d.section_type = k) :=
        (sort_details_stable_perm _).mem_iff.mp he
      rw [List.mem_filter] at he2
      refine ⟨hmin' e he2.1, ?_⟩
      simpa using he2.2
    rw [show sort_details_stable (d :: L')
      = insert_detail d (sort_details_stable L') from rfl]
    rw [ih hmin']
    by_cases hdk : d.section_type = k
    · rw [insert_detail_cons_of_le]
      · rw [List.filter_cons, List.filter_cons]
        simp [hdk]
      · intro e he
        rcases List.mem_append.mp he with h1 | h2
        · rw [List.mem_filter] at h1
          have h3 := of_decide_eq_true h1.2
          omega
        · have h3 := (hsortmem e h2).1
          omega
    · have hklt : k < d.section_type := by
        have := hmin d (by simp)
        omega
      rw [insert_detail_append_of_lt]
      · rw [List.filter_cons, List.filter_cons]
        simp [hdk]
        rfl
      · intro e he
        rw [List.mem_filter] at he
        have h3 := of_decide_eq_true he.2
        omega

/-- `flatMap` respects pointwise equality on members. -/
theorem flatMap_congr_mem {α β : Type} {l : List α} {f g : α → List β}
    (h : ∀ a ∈ l, f a = g a) : l.flatMap f = l.flatMap g := by
  induction l with
  | nil => rfl
  | cons a as ih =>
    rw [List.flatMap_cons, List.flatMap_cons, h a (by simp),
      ih (fun b hb => h b (by simp [hb]))]

/-- Filtering out one type commutes with a bucket of a different type. -/
theorem filter_ne_filter_eq (L : List FlatDetail) (k st : Nat)
    (hne : ¬ st = k) :
    (L.filter (fun d => ¬ d.section_type = k)).filter
        (fun d => d.section_type = st)
      = L.filter (fun d => d.section_type = st) := by
  rw [List.filter_filter]
  refine List.filter_congr (fun d hd => ?_)
  by_cases h1 : d.section_type = st
  · have h2 : ¬ d.section_type = k := by omega
    simp [h1, h2, hne]
  · simp [h1]

/-- A bucket of a type belonging to the group equals the same bucket taken
from the group-filtered details. -/
theorem group_bucket_eq (details : List FlatDetail) (st mid : Nat)
    (hst : section_to_main st = mid) :
    (details.filter (fun d => section_to_main d.section_type = mid)).filter
        (fun d => d.section_type = st)
      = details.filter (fun d => d.section_type = st) := by
  rw [List.filter_filter]
  refine List.filter_congr (fun d hd => ?_)
  by_cases h1 : d.section_type = st
  · have h2 : section_to_main d.section_type = mid := by rw [h1]; exact hst
    simp [h1, h2, hst]
  · simp [h1]

/-- Walking a strictly-ascending key list that covers all the types of `L`
and concatenating each key's bucket (in `L`'s order) is exactly the stable
sort of `L` by ascending type — the heart of the amended C4 ordering
claim. -/
theorem buckets_eq_stable_sort (keys : List Nat) (L : List FlatDetail)
    (hsort : keys.Pairwise (· < ·))
    (hcover : ∀ d ∈ L, d.section_type ∈ keys) :
    keys.flatMap (fun st => L.filter (fun d => d.section_type = st))
      = sort_details_stable L := by
  induction keys generalizing L with
  | nil =>
    cases L with
    | nil => rfl
    | cons d ds => exact absurd (hcover d (by simp)) (by simp)
  | cons k ks ih =>
    rw [List.pairwise_cons] at hsort
    have hminL : ∀ d ∈ L, k ≤ d.section_type := by
      intro d hd
      rcases List.mem_cons.mp (hcover d hd) with heq | hmem
      · omega
      · have := hsort.1 _ hmem
        omega
    have hstep : ks.flatMap (fun st => L.filter (fun d => d.section_type = st))
        = ks.flatMap (fun st =>
            (L.filter (fun d => ¬ d.section_type = k)).filter
              (fun d => d.section_type = st)) := by
      refine flatMap_congr_mem (fun st hst => ?_)
      have hne : ¬ st = k := by
        have := hsort.1 st hst
        omega
      exact (filter_ne_filter_eq L k st hne).symm
    have hcov' : ∀ d ∈ L.filter (fun d => ¬ d.section_type = k),
        d.section_type ∈ ks := by
      intro d hd
      rw [List.mem_filter] at hd
      have h2 := of_decide_eq_true hd.2
      rcases List.mem_cons.mp (hcover d hd.1) with heq | hmem
      · exact absurd heq h2
      · exact hmem
    rw [List.flatMap_cons, hstep, ih _ hsort.2 hcov']
    exact (sort_details_min_split k L hminL).symm

/-- Every main group `transform_flat_to_hierarchical` produces carries
exactly the group's input details ordered by ascending `section_type` with
ties in encounter order (the stable sort), renumbered from 1. -/
theorem transform_group_sections (details : List FlatDetail) (m : MainSection)
    (hm : m ∈ transform_flat_to_hierarchical details) :
    m.sections = claimed_ascending_sections details m.main_order := by
  unfold transform_flat_to_hierarchical at hm
  simp only [List.mem_map] at hm
  obtain ⟨mid, hmid, rfl⟩ := hm
  simp only
  unfold claimed_ascending_sections
  congr 1
  have h1 : ∀ st ∈ (sort_nat ((details.map (fun d => d.section_type)).dedup)).filter
      (fun st => section_to_main st = mid),
      details.filter (fun d => d.section_type = st)
        = (details.filter (fun d => section_to_main d.section_type = mid)).filter
            (fun d => d.section_type = st) := by
    intro st hst
    rw [List.mem_filter] at hst
    exact (group_bucket_eq details st mid (of_decide_eq_true hst.2)).symm
  rw [flatMap_congr_mem h1]
  apply buckets_eq_stable_sort
  · have hperm := sort_nat_perm ((details.map (fun d => d.section_type)).dedup)
    have hnd : (sort_nat ((details.map (fun d => d.section_type)).dedup)).Nodup :=
      hperm.nodup_iff.mpr (List.nodup_dedup _)
    have hle := sort_nat_pairwise_le ((details.map (fun d => d.section_type)).dedup)
    have hlt : (sort_nat ((details.map (fun d => d.section_type)).dedup)).Pairwise
        (· < ·) :=
      (hle.and hnd).imp (fun h => lt_of_le_of_ne h.1 h.2)
    exact hlt.sublist (List.filter_sublist _)
  · intro d hd
    rw [List.mem_filter] at hd ⊢
    refine ⟨?_, hd.2⟩
    have hmem : d.section_type ∈ (details.map (fun d => d.section_type)).dedup := by
      rw [List.mem_dedup]
      exact List.mem_map_of_mem _ hd.1
    exact (sort_nat_perm _).mem_iff.mpr hmem

/-- The input of the C4 counterexample: section types 6 then 5, in that
encounter order. -/
def c4_cex_details : List FlatDetail :=
  [{ section_type := 6, content := "b" }, { section_type := 5, content := "a" }]

/-- The input of the C4 positive example: section types 0 and 6. -/
def c4_details_ex : List FlatDetail :=
  [{ section_type := 0, content := "a" }, { section_type := 6, content := "b" }]

/-- The first main group `transform_flat_to_hierarchical` produces for
`c4_details_ex`. -/
def c4_group_ex : MainSection :=
  { main_order := 1, main_title := "개요"
    sections := [{ section_order := 1, section_title := "분석 목적", content := "a" }] }

/-- C4 counterexample: the claim says sub-sections within a main group are
numbered in encounter order of the input details, but the code walks the
section types in `sorted` order: for the input `[{section_type 6},
{section_type 5}]` the produced group lists section 5 before section 6,
not the encountered 6-before-5. -/
theorem c4_counterexample :
    transform_flat_to_hierarchical c4_cex_details
      ≠ [{ main_order := 2, main_title := main_title 2
           sections := spec_encounter_order_sections c4_cex_details 2 }] := by
  decide

/-- C4 (amended): `transform_flat_to_hierarchical` maps each detail's
`section_type` through the 12-entry table covering 0..11 with values in
1..3 (0-4 to group 1, 5-9 to group 2, 10-11 to group 3, an unmapped type
such as 99 defaulting to 3); details with section types 0 and 6 produce two
main groups with `main_order` 1 and 2; and within each produced main group
the sub-sections are renumbered 1..N consecutively and are exactly the
group's input details in ascending `section_type` order with ties in
encounter order (the stable sort `claimed_ascending_sections`), not in raw
encounter order. -/
theorem c4_transform_hierarchy (details : List FlatDetail) (m : MainSection)
    (hm : m ∈ transform_flat_to_hierarchical details) :
    section_to_main 99 = 3
    ∧ ((List.range 12).all fun st =>
        decide (section_to_main st = if st ≤ 4 then 1 else if st ≤ 9 then 2 else 3)) = true
    ∧ (transform_flat_to_hierarchical c4_details_ex).map (fun g => g.main_order) = [1, 2]
    ∧ m.sections.map (fun sec => sec.section_order) = List.range' 1 m.sections.length
    ∧ m.sections = claimed_ascending_sections details m.main_order := by
  refine ⟨by decide, by decide, by decide, ?_, transform_group_sections details m hm⟩
  unfold transform_flat_to_hierarchical at hm
  simp only [List.mem_map] at hm
  obtain ⟨mid, _, rfl⟩ := hm
  simp only
  rw [number_from_orders, number_from_length]

/-- C4 witness: the amended theorem instantiated at the two-detail input
with section types 0 and 6 and its first produced main group. -/
theorem c4_transform_hierarchy_witness :
    c4_group_ex ∈ transform_flat_to_hierarchical c4_details_ex
    ∧ (section_to_main 99 = 3
      ∧ ((List.range 12).all fun st =>
          decide (section_to_main st = if st ≤ 4 then 1 else if st ≤ 9 then 2 else 3)) = true
      ∧ (transform_flat_to_hierarchical c4_details_ex).map (fun g => g.main_order) = [1, 2]
      ∧ c4_group_ex.sections.map (fun sec => sec.section_order)
          = List.range' 1 c4_group_ex.sections.length
      ∧ c4_group_ex.sections = claimed_ascending_sections c4_details_ex c4_group_ex.main_order) :=
  ⟨by decide, c4_transform_hierarchy c4_details_ex c4_group_ex (by decide)⟩

/-- C7 (modelled from the spec, §4.15): the production entry point
`invoke_scenarios` constructs the initial `AgentState` with
`target_artifact_count = 100,000`, strictness `"very_strict"` and iteration
0, runs the full workflow graph on it with a hard step budget of 80, and
returns the resulting scenario together with the classification context
text, for every graph behaviour. -/
theorem c7_invoke_scenarios {α : Type}
    (graph_run : Nat → AgentState α → AgentState α) (artifacts : List α)
    (task_id job_id : String) (job_info : List (String × String)) :
    (initial_scenario_state artifacts task_id job_id job_info).target_artifact_count = 100000
    ∧ (initial_scenario_state artifacts task_id job_id job_info).current_strictness
        = "very_strict"
    ∧ (initial_scenario_state artifacts task_id job_id job_info).filter_iteration = 0
    ∧ invoke_scenarios graph_run artifacts task_id job_id job_info
        = ((graph_run 80 (initial_scenario_state artifacts task_id job_id job_info)).final_report,
           (graph_run 80 (initial_scenario_state artifacts task_id job_id job_info)).context) := by
  exact ⟨rfl, rfl, rfl, rfl⟩

/-- Base example state for exercising the filter predicates (target
10,000, as in the spec's examples). -/
def c5_base : AgentState Nat :=
  { job_id := "j", task_id := "t", job_info := [], artifact_chunks := []
    intermediate_results := [], filter_iteration := 0
    target_artifact_count := 10000, current_strictness := "very_strict"
    raw_user_requirements := "", final_report := none, context := none }

/-- Example state: iteration 2, 12,000 surviving artifacts. -/
def c5_state_continue : AgentState Nat :=
  { c5_base with
    filter_iteration := 2
    intermediate_results := [{ important_artifacts := List.replicate 12000 0, chunk_summary := "" }] }

/-- Example state: 9,000 surviving artifacts at an arbitrary iteration. -/
def c5_state_small (it : Nat) : AgentState Nat :=
  { c5_base with
    filter_iteration := it
    intermediate_results := [{ important_artifacts := List.replicate 9000 0, chunk_summary := "" }] }

/-- Example state: iteration 3 with arbitrary surviving results. -/
def c5_state_cap (inter : List (ChunkAnalysisResult Nat)) : AgentState Nat :=
  { c5_base with filter_iteration := 3, intermediate_results := inter }

/-- Equation form of `should_continue_filtering`: the two `"synthesize"`
branches merge into one disjunction. -/
theorem should_continue_filtering_eq {β : Type} (t : AgentState β) :
    should_continue_filtering t
      = if surviving_total t ≤ t.target_artifact_count ∨ 3 ≤ t.filter_iteration
        then "synthesize" else "continue" := by
  unfold should_continue_filtering
  split_ifs <;> first | rfl | tauto

/-- C5: `should_continue_filtering` returns `"synthesize"` exactly when the
total surviving-artifact count is at most the target or the iteration count
has reached 3, and `"continue"` in every other case; in particular
target 10,000 / iteration 2 / surviving 12,000 gives `"continue"`,
surviving 9,000 gives `"synthesize"` at any iteration, and iteration 3
gives `"synthesize"` at any surviving count. -/
theorem c5_should_continue_filtering {α : Type} (s : AgentState α) :
    (should_continue_filtering s = "synthesize"
      ↔ surviving_total s ≤ s.target_artifact_count ∨ 3 ≤ s.filter_iteration)
    ∧ (should_continue_filtering s = "continue"
      ↔ ¬(surviving_total s ≤ s.target_artifact_count ∨ 3 ≤ s.filter_iteration))
    ∧ should_continue_filtering c5_state_continue = "continue"
    ∧ (∀ it : Nat, should_continue_filtering (c5_state_small it) = "synthesize")
    ∧ (∀ inter : List (ChunkAnalysisResult Nat),
        should_continue_filtering (c5_state_cap inter) = "synthesize") := by
  have key := @should_continue_filtering_eq α
  refine ⟨?_, ?_, ?_, ?_, ?_⟩
  · rw [key]
    split_ifs with h
    · simp [h]
    · exact ⟨fun hh => absurd hh (by decide), fun hh => absurd hh h⟩
  · rw [key]
    split_ifs with h
    · exact ⟨fun hh => absurd hh.symm (by decide), fun hh => absurd h hh⟩
    · simp [h]
  · have hsum : surviving_total c5_state_continue = 12000 := by
      show (List.map (fun r => r.important_artifacts.length)
        c5_state_continue.intermediate_results).sum = 12000
      rw [show c5_state_continue.intermediate_results
        = [{ important_artifacts := List.replicate 12000 0, chunk_summary := "" }] from rfl]
      simp only [List.map_cons, List.map_nil, List.sum_cons, List.sum_nil,
        List.length_replicate, Nat.add_zero]
    rw [should_continue_filtering_eq, hsum,
      show c5_state_continue.target_artifact_count = 10000 from rfl,
      show c5_state_continue.filter_iteration = 2 from rfl,
      if_neg (by omega)]
  · intro it
    have hsum : surviving_total (c5_state_small it) = 9000 := by
      show (List.map (fun r => r.important_artifacts.length)
        (c5_state_small it).intermediate_results).sum = 9000
      rw [show (c5_state_small it).intermediate_results
        = [{ important_artifacts := List.replicate 9000 0, chunk_summary := "" }] from rfl]
      simp only [List.map_cons, List.map_nil, List.sum_cons, List.sum_nil,
        List.length_replicate, Nat.add_zero]
    rw [should_continue_filtering_eq, hsum,
      show (c5_state_small it).target_artifact_count = 10000 from rfl,
      if_pos (Or.inl (by omega))]
  · intro inter
    rw [should_continue_filtering_eq,
      show (c5_state_cap inter).filter_iteration = 3 from rfl,
      if_pos (Or.inr (by omega))]

/-- C2: for every structured query and every hit list the vector store
returns, `artifact_search_tool` flags `limited` exactly when the requested
`max_results` exceeded 300, returns at most `clamp(max_results, 1, 300)`
artifacts, and every returned artifact comes from a hit whose distance is
at most `1 - similarity_threshold` — with threshold 0.9, at most 0.1. -/
theorem c2_artifact_search_tool {D : Type} (q : StructuredQuery)
    (hits : List (ScoredDoc D)) :
    ((artifact_search_tool q hits).meta.limited = true ↔ 300 < q.max_results)
    ∧ ((artifact_search_tool q hits).artifacts.length : ℤ) ≤ min 300 (max 1 q.max_results)
    ∧ (∀ d ∈ (artifact_search_tool q hits).artifacts,
        ∃ h ∈ hits, h.doc = d ∧ h.score ≤ 1 - q.similarity_threshold)
    ∧ (q.similarity_threshold = 9 / 10 →
        ∀ d ∈ (artifact_search_tool q hits).artifacts,
          ∃ h ∈ hits, h.doc = d ∧ h.score ≤ 1 / 10) := by
  have hmem : ∀ d ∈ (artifact_search_tool q hits).artifacts,
      ∃ h ∈ hits, h.doc = d ∧ h.score ≤ 1 - q.similarity_threshold := by
    intro d hd
    unfold artifact_search_tool at hd
    simp only [List.mem_map] at hd
    obtain ⟨h, hh, rfl⟩ := hd
    have h1 : h ∈ hits.filter (fun h => decide (h.score ≤ 1 - q.similarity_threshold)) :=
      List.take_subset _ _ hh
    rw [List.mem_filter] at h1
    exact ⟨h, h1.1, rfl, of_decide_eq_true h1.2⟩
  refine ⟨?_, ?_, hmem, ?_⟩
  · unfold artifact_search_tool MAX_SEARCH_RESULTS
    by_cases ha : (300 : ℤ) < q.max_results
    · simp [ha]
    · by_cases hb : q.max_results < 1 <;> simp [ha, hb]
  · unfold artifact_search_tool MAX_SEARCH_RESULTS
    by_cases ha : (300 : ℤ) < q.max_results
    · simp only [ha, if_pos, List.length_map, List.length_take]
      omega
    · by_cases hb : q.max_results < 1 <;>
        simp only [ha, hb, if_pos, if_neg, if_false, List.length_map, List.length_take] <;>
        omega
  · intro hthr d hd
    obtain ⟨h, hh, hdoc, hs⟩ := hmem d hd
    rw [hthr] at hs
    refine ⟨h, hh, hdoc, by linarith [hs]⟩

/-- C6: `recursive_filter_node` chunks and filters exactly the caller's
`artifact_chunks` concatenation on iteration 0 and exactly the previous
iteration's surviving (`important_artifacts`) concatenation on every later
iteration the node processes (iterations 1 and 2), while `artifact_chunks`
itself passes through the returned state unchanged. -/
theorem c6_recursive_filter_node_pool {α : Type}
    (analyze : List α → Nat → ℚ → ChunkAnalysisResult α) (s : AgentState α) :
    (recursive_filter_node analyze s).artifact_chunks = s.artifact_chunks
    ∧ (s.filter_iteration = 0 →
        ∃ rate : ℚ, (recursive_filter_node analyze s).intermediate_results
          = (chunk_artifacts s.artifact_chunks.flatten 300).enum.map
              (fun p => analyze p.2 p.1 rate))
    ∧ (1 ≤ s.filter_iteration → s.filter_iteration < 3 →
        ∃ rate : ℚ, (recursive_filter_node analyze s).intermediate_results
          = (chunk_artifacts
              ((s.intermediate_results.map (fun r => r.important_artifacts)).flatten)
              300).enum.map
              (fun p => analyze p.2 p.1 rate)) := by
  by_cases h3 : 3 ≤ s.filter_iteration
  · refine ⟨?_, ?_, ?_⟩
    · simp [recursive_filter_node, h3]
    · intro h0
      exact absurd h3 (by omega)
    · intro _ h2
      exact absurd h3 (by omega)
  · refine ⟨?_, ?_, ?_⟩
    · simp [recursive_filter_node, h3]
    · intro h0
      refine ⟨(strictness_levels.getD s.filter_iteration ("", 0)).2, ?_⟩
      simp [recursive_filter_node, h3, h0]
    · intro h1 _
      have h0 : ¬ s.filter_iteration = 0 := by omega
      refine ⟨(strictness_levels.getD s.filter_iteration ("", 0)).2, ?_⟩
      simp [recursive_filter_node, h3, h0]

/-- Provenance of an assembled detail: each produced `ReportDetailCreate`
comes from a section in the list whose exporter yielded a non-empty
content. -/
theorem run_details_mem (sections : List Nat)
    (contents : Nat → Except String (Option String))
    (evs : List Event) (ds : List ReportDetailCreate)
    (h : run_details sections contents = (evs, Except.ok ds)) :
    ∀ d ∈ ds, ∃ st ∈ sections, d.section_type = st
      ∧ ∃ c, contents st = Except.ok (some c) ∧ c ≠ "" ∧ d.content = c := by
  induction sections generalizing evs ds with
  | nil =>
    unfold run_details at h
    rw [Prod.ext_iff] at h
    obtain ⟨-, h2⟩ := h
    injection h2 with h2
    subst h2
    intro d hd
    simp at hd
  | cons st rest ih =>
    unfold run_details at h
    cases hc : contents st with
    | error e =>
      rw [hc] at h
      rw [Prod.ext_iff] at h
      exact absurd h.2 (by simp)
    | ok copt =>
      simp only [hc] at h
      rw [Prod.ext_iff] at h
      obtain ⟨-, h2⟩ := h
      simp only at h2
      cases ht : (run_details rest contents).2 with
      | error e =>
        rw [ht] at h2
        simp [Except.map] at h2
      | ok tailds =>
        rw [ht] at h2
        simp only [Except.map] at h2
        injection h2 with h2
        subst h2
        intro d hd
        rw [List.mem_append] at hd
        cases hd with
        | inl hin =>
          cases copt with
          | none => simp [detail_of] at hin
          | some c =>
            by_cases hcne : c = ""
            · simp [detail_of, hcne] at hin
            · simp only [detail_of, if_neg hcne, List.mem_singleton] at hin
              subst hin
              exact ⟨st, by simp, rfl, c, hc, hcne, rfl⟩
        | inr hin =>
          have hrest : run_details rest contents
              = ((run_details rest contents).1, Except.ok tailds) := by
            rw [← ht]
          obtain ⟨st', hst', hdst, c, hcc, hcne, hdc⟩ := ih _ _ hrest d hin
          exact ⟨st', by simp [hst'], hdst, c, hcc, hcne, hdc⟩

/-- C1: whenever `save_scenario` returns a falsy result,
`Generator.generate_report` raises immediately: the run's trace stops at
the save-scenario step, so no report-detail exporter is invoked and
neither report persistence nor PDF generation is reached. -/
theorem c1_generate_report_aborts (b : BackendClient) (env : GeneratorEnv)
    (task_id job_id : String) (h : b.saveScen env.scen = false) :
    (generate_report b env task_id job_id).2.isSome = true
    ∧ (generate_report b env task_id job_id).1
        = [Event.genScenarios, Event.saveScenCall]
    ∧ (∀ st, Event.exporterCall st ∉ (generate_report b env task_id job_id).1)
    ∧ Event.saveReportCall ∉ (generate_report b env task_id job_id).1
    ∧ Event.pdfCall ∉ (generate_report b env task_id job_id).1 := by
  have hgr : generate_report b env task_id job_id
      = ([Event.genScenarios, Event.saveScenCall],
         some "Failed to save scenario. Report generation aborted.") := by
    unfold generate_report
    simp [h]
  rw [hgr]
  refine ⟨rfl, rfl, ?_, ?_, ?_⟩ <;> simp

/-- Concrete scenario value for witnesses. -/
def scen_ex : ScenarioCreate :=
  { job_id := "j", task_id := "t", report_detail_id := none, name := "n"
    description := none, steps := [] }

/-- A backend whose `save_scenario` rejects everything. -/
def backend_fail : BackendClient :=
  { saveScen := fun _ => false, saveReport := fun _ _ _ => Except.error "unreached" }

/-- A generator environment with every exporter succeeding. -/
def env_ex : GeneratorEnv :=
  { scen := scen_ex, ctx := "ctx", contents := fun _ => Except.ok (some "c")
    user_id := "u", pc_id := "p", upload_result := none }

/-- C1 witness: the theorem applied to a backend that rejects the
scenario. -/
theorem c1_generate_report_aborts_witness :
    backend_fail.saveScen env_ex.scen = false
    ∧ ((generate_report backend_fail env_ex "t" "j").2.isSome = true
      ∧ (generate_report backend_fail env_ex "t" "j").1
          = [Event.genScenarios, Event.saveScenCall]
      ∧ (∀ st, Event.exporterCall st ∉ (generate_report backend_fail env_ex "t" "j").1)
      ∧ Event.saveReportCall ∉ (generate_report backend_fail env_ex "t" "j").1
      ∧ Event.pdfCall ∉ (generate_report backend_fail env_ex "t" "j").1) :=
  ⟨rfl, c1_generate_report_aborts backend_fail env_ex "t" "j" rfl⟩

/-- C9: section 9's exporter turns a response equal (case-insensitively)
to the literal token `"none"` into an absent content value — concretely for
`"None"` and `"NONE"` — and returns any other non-empty response as the
content; and the orchestrator's detail-assembly loop omits from the
assembled details every section whose exporter yielded an absent value, so
an absent section 9 never appears in the report's details. -/
theorem c9_section9_none_suppressed :
    (∀ ctx resp, pyStrip resp ≠ "" → pyLower resp = "none" →
        export_9 (some ctx) resp = Except.ok none)
    ∧ export_9 (some "ctx") "None" = Except.ok none
    ∧ export_9 (some "ctx") "NONE" = Except.ok none
    ∧ (∀ ctx resp, pyStrip resp ≠ "" → pyLower resp ≠ "none" →
        export_9 (some ctx) resp = Except.ok (some resp))
    ∧ (∀ (contents : Nat → Except String (Option String)) evs ds,
        run_details section_type_list contents = (evs, Except.ok ds) →
        contents 9 = Except.ok none →
        ∀ d ∈ ds, d.section_type ≠ 9) := by
  refine ⟨?_, rfl, rfl, ?_, ?_⟩
  · intro ctx resp h1 h2
    unfold export_9
    rw [if_neg h1, if_pos h2]
  · intro ctx resp h1 h2
    unfold export_9
    rw [if_neg h1, if_neg h2]
  · intro contents evs ds h h9 d hd h9d
    obtain ⟨st, -, hdst, c, hcc, -, -⟩ := run_details_mem _ _ _ _ h d hd
    rw [h9d] at hdst
    rw [← hdst] at hcc
    rw [h9] at hcc
    injection hcc with hcc
    exact Option.noConfusion hcc

/-- C10: the PDF step as wired cannot succeed — the call in
`Generator._generate_pdf_report` omits the required `user_id` parameter of
`PDFReportExporter.generate_and_upload`, so the call never binds and the
`except` handler turns the `TypeError` into `None` for every would-be
upload result — yet once the scenario and the report have both been
persisted, `generate_report` still completes normally (no raised error)
with the PDF step present in its trace. -/
theorem c10_pdf_step_never_succeeds :
    call_binds generate_and_upload_params pdf_call_kwargs = false
    ∧ (∀ r, generate_pdf_report r = none)
    ∧ (∀ (b : BackendClient) (env : GeneratorEnv) (task_id job_id : String)
        (ds : List ReportDetailCreate) (resp : SaveReportResp),
        b.saveScen env.scen = true →
        (run_details section_type_list env.contents).2 = Except.ok ds →
        b.saveReport (mk_report env.pc_id task_id ds) env.user_id job_id
          = Except.ok resp →
        (generate_report b env task_id job_id).2 = none
        ∧ Event.pdfCall ∈ (generate_report b env task_id job_id).1) := by
  refine ⟨rfl, fun r => rfl, ?_⟩
  intro b env task_id job_id ds resp h1 h2 h3
  have hgr : generate_report b env task_id job_id
      = ([Event.genScenarios, Event.saveScenCall]
          ++ (run_details section_type_list env.contents).1
          ++ [Event.saveReportCall, Event.pdfCall], none) := by
    unfold generate_report
    rw [if_neg (by rw [h1]; simp)]
    simp only [h2, h3, save_report_resp_truthy]
    simp
  rw [hgr]
  exact ⟨rfl, by simp⟩

end Gen
